import Mathlib

/-!
# Verification of the AI Podcast Generator pipeline (`src/student-implementation.js`)

Shallow embedding of the single source file `student-implementation.js`.
The source is a teaching skeleton: the four functions `fetchNews`,
`generateScript`, `generateAudio` and `generatePodcast` contain TODO
markers, and several bindings the comments say should receive the result
of an HTTP call or a collaborator call are instead literal constants
(`const response = null`, `const articles = null`, ...).  The embedding
reproduces the code exactly as written, constants included.

Side effects (console output, helper logging, HTTP requests, file saves)
are modelled as an explicit trace of `Effect` values returned alongside a
result.  `process.exit(code)` and a thrown exception are the non-return
outcomes of `TryOutcome`.  The process environment is a partial map from
variable names to string values.
-/

set_option linter.unusedVariables false

/-- The process environment: `process.env` as a partial map. -/
def Env : Type := String → Option String

/-- An observable side effect of one run.  `logStep`, `logSuccess`,
`handleApiError`, `saveTextFile` and `saveAudioFile` are calls into the
helper module `api-helpers.js` (not part of the sources; the spec leaves
helper formatting and logging presentation out of scope, so each call is
recorded as an opaque effect).  `httpGet`/`httpPost` record an outbound
HTTP request; the source as written never issues one. -/
inductive Effect where
  | logStep (n : Nat) (msg : String)
  | logSuccess (msg : String)
  | consoleLog (msg : String)
  | consoleError (msg : String)
  | httpGet (url : String)
  | httpPost (url : String)
  | saveTextFile (content : String) (filename : String)
  | saveAudioFile (filename : String)
  | handleApiError (api : String)
deriving DecidableEq, Repr

/-- An Article: external-source record with at least a title; the code
only ever reads `article.title`. -/
structure Article where
  title : String
deriving DecidableEq, Repr

/-- Outcome of a `try` block: `process.exit(code)` inside the block, an
exception carrying its message, or a normal value. -/
inductive TryOutcome (α : Type) where
  | exited (code : Nat)
  | threw (msg : String)
  | ok (v : α)
deriving DecidableEq, Repr

/-- Final outcome of `generatePodcast()`: the process terminated with an
exit code, or the function returned a value. -/
inductive RunOutcome (α : Type) where
  | exited (code : Nat)
  | returned (v : α)
deriving DecidableEq, Repr

/-- The Run Result summary record built at line 330 of the source. -/
structure RunResult where
  success : Bool
  articlesCount : Nat
  script : String
  scriptLength : Nat
  audioFile : String
deriving DecidableEq, Repr

/-- Result of `helpers.validateEnvironmentVariables`. -/
structure Validation where
  valid : Bool
  missing : List String
deriving DecidableEq, Repr

/-- Modelled from the spec: `helpers.validateEnvironmentVariables` lives
in `api-helpers.js`, which is not among the sources.  The spec (section
4.1 step 1 and section 7) says the orchestrator must "validate that all
required external credentials (configuration values) are present; if any
are missing, report which ones", a configuration error being "missing
credential, reported with the list of missing names".  So the validator
returns the sublist of required names absent from the environment, and a
validity flag that is true exactly when that list is empty. -/
def validateEnvironmentVariables (env : Env) (required : List String) : Validation :=
  let missing := required.filter (fun v => (env v).isNone)
  { valid := missing.isEmpty, missing := missing }

/-- `fetchNews` (source lines 44-80) as written.  The TODO bindings are
the literal constants of the source: `response` is `null` (no GET request
is ever issued) and `articles` is the empty array literal, so the
function logs and returns `[]`.  The catch clause (lines 76-79, wrapping
an error as "Failed to fetch news articles") is unreachable: no statement
of the try block can raise. -/
def fetchNews (env : Env) : List Effect × Except String (List Article) :=
  let url : String := "https://newsapi.org/v2/top-headlines"
  let params : List (String × Option String) := [("apiKey", env "NEWSAPI_KEY")]
  -- const response = null;   (the GET request of the hint is not made)
  let response : Option Unit := none
  let articles : List Article := []
  ([Effect.logStep 1 "Fetching trending news from NewsAPI",
    Effect.logSuccess ("Fetched " ++ toString articles.length ++ " news articles")]
    ++ articles.enum.map
        (fun p => Effect.consoleLog ("   " ++ toString (p.1 + 1) ++ ". " ++ p.2.title)),
   Except.ok articles)

/-- `generateScript` (source lines 112-168) as written.  Every TODO
binding is the literal constant of the source: `formattedNews`, `prompt`
and `url` are empty strings, `response` is `null` (no POST request) and
`script` is the empty string.  The hinted `helpers.saveTextFile(script,
'podcast-script.txt')` call at line 160 is only a comment: no file is
written.  The catch clause (lines 164-167) is unreachable. -/
def generateScript (articles : List Article) : List Effect × Except String String :=
  let formattedNews : String := ""
  let prompt : String := ""
  let url : String := ""
  -- headers: {}; data: model gpt-3.5-turbo, one user message, temperature, max_tokens
  -- const response = null;   (the POST request of the hint is not made)
  let response : Option Unit := none
  let script : String := ""
  ([Effect.logStep 2 "Generating podcast script with OpenAI",
    Effect.logSuccess "Podcast script generated",
    Effect.consoleLog ("   Script length: " ++ toString script.length ++ " characters")],
   Except.ok script)

/-- The `voiceId` binding of `generateAudio` (source line 203) as
written: the hard-coded default.  The hint at line 202 suggests
`process.env.PODCAST_VOICE_ID || default`, but the code ignores the
environment. -/
def voiceIdUsed (env : Env) : String := "21m00Tcm4TlvDq8ikWAM"

/-- The voice identifier the spec describes, stated from the spec words
for comparison with `voiceIdUsed`: the configurable override
`PODCAST_VOICE_ID` when set, else the default. -/
def specVoiceId (env : Env) : String :=
  (env "PODCAST_VOICE_ID").getD "21m00Tcm4TlvDq8ikWAM"

/-- `generateAudio` (source lines 197-246) as written.  `voiceId` is the
hard-coded default, `url` is the empty string (the hinted template is not
used), the headers and body are built but `response` is `null` (no POST
request), `filename` is the constant `podcast.mp3` and `filePath` is the
empty string; the hinted `helpers.saveAudioFile` call at line 235 is only
a comment, so nothing is written and the empty `filePath` is returned.
The catch clause (lines 242-245, `helpers.handleApiError` then `throw new
Error('Failed to generate audio')`) is unreachable: no statement of the
try block can raise. -/
def generateAudio (env : Env) (text : String) : List Effect × Except String String :=
  let voiceId := voiceIdUsed env
  let url : String := ""
  let headers : List (String × Option String) :=
    [("xi-api-key", env "ELEVENLABS_API_KEY"), ("Content-Type", some "application/json")]
  -- data: { text, model_id: eleven_monolingual_v1, voice_settings }
  -- const response = null;   (the POST request of the hint is not made)
  let response : Option Unit := none
  let filename : String := "podcast.mp3"
  let filePath : String := ""
  ([Effect.logStep 3 "Converting text to speech with ElevenLabs",
    Effect.logSuccess ("Audio generated: " ++ filename)],
   Except.ok filePath)

/-- Sixty `=` characters, `'='.repeat(60)` of the source. -/
def sep60 : String := String.mk (List.replicate 60 '=')

/-- The banner printed by `generatePodcast` before its try block
(source lines 272-274). -/
def banner : List Effect :=
  [Effect.consoleLog ("\n" ++ sep60),
   Effect.consoleLog "🎙️  AI PODCAST GENERATOR",
   Effect.consoleLog sep60]

/-- The required-variables array of source line 279. -/
def requiredVars : List String := ["NEWSAPI_KEY", "OPENAI_API_KEY", "ELEVENLABS_API_KEY"]

/-- The try block of `generatePodcast` (source lines 276-336) as
written.  After validation, the `articles`, `script` and `audioFilePath`
bindings are the literal constant `null` of the source — `fetchNews`,
`generateScript` and `generateAudio` are never called — so the guard at
line 297 always raises `No articles fetched` and every later line is
dead.  The dead guards and the summary/Run-Result tail are still
embedded, mirroring the source. -/
def generatePodcastTry (env : Env) : List Effect × TryOutcome RunResult :=
  let validation := validateEnvironmentVariables env requiredVars
  if !validation.valid then
    ([Effect.consoleError "\n❌ Missing required environment variables:"]
      ++ validation.missing.map (fun v => Effect.consoleError ("   - " ++ v))
      ++ [Effect.consoleError "\n💡 Copy .env.example to .env and add your API keys\n"],
     TryOutcome.exited 1)
  else
    let e0 := [Effect.logSuccess "Environment variables validated"]
    -- const articles = null;   (fetchNews() is not awaited)
    let articles : Option (List Article) := none
    if articles.isNone || (articles.getD []).isEmpty then
      (e0, TryOutcome.threw "No articles fetched")
    else
      -- const script = null;   (generateScript(articles) is not awaited)
      let script : Option String := none
      if script.isNone || (script.getD "").length == 0 then
        (e0, TryOutcome.threw "No script generated")
      else
        -- const audioFilePath = null;   (generateAudio(script) is not awaited)
        let audioFilePath : Option String := none
        if audioFilePath.isNone then
          (e0, TryOutcome.threw "No audio file generated")
        else
          let arts := articles.getD []
          let s := script.getD ""
          let path := audioFilePath.getD ""
          (e0
            ++ [Effect.consoleLog ("\n" ++ sep60),
                Effect.consoleLog "🎉 PODCAST GENERATION COMPLETE!",
                Effect.consoleLog sep60,
                Effect.consoleLog ("✅ News articles fetched: " ++ toString arts.length),
                Effect.consoleLog ("✅ Script generated: " ++ toString s.length ++ " characters"),
                Effect.consoleLog ("✅ Audio file created: " ++ path),
                Effect.consoleLog "\n📁 Check the /output folder for your files!",
                Effect.consoleLog "🎧 Listen to your AI-generated podcast!",
                Effect.consoleLog (sep60 ++ "\n")],
           TryOutcome.ok
             { success := true
               articlesCount := arts.length
               script := s
               scriptLength := s.length
               audioFile := path })

/-- `generatePodcast` (source lines 271-344): banner, then the try
block; the catch clause (lines 338-343) logs the failure and the error
message and calls `process.exit(1)`. -/
def generatePodcast (env : Env) : List Effect × RunOutcome RunResult :=
  let tryRun := generatePodcastTry env
  match tryRun.2 with
  | TryOutcome.exited c => (banner ++ tryRun.1, RunOutcome.exited c)
  | TryOutcome.threw msg =>
      (banner ++ tryRun.1
        ++ [Effect.consoleError "\n❌ PODCAST GENERATION FAILED",
            Effect.consoleError ("Error: " ++ msg),
            Effect.consoleError "\n💡 Check the error messages above for details\n"],
       RunOutcome.exited 1)
  | TryOutcome.ok r => (banner ++ tryRun.1, RunOutcome.returned r)

/-- Does an effect invoke the stage whose `helpers.logStep` number is
`n`?  Each collaborator stage logs its step number as its first action
(`fetchNews` step 1, `generateScript` step 2, `generateAudio` step 3), so
a trace invokes a stage iff it contains that step log. -/
def Effect.isStep (n : Nat) : Effect → Bool
  | Effect.logStep m _ => m == n
  | _ => false

/-- A trace invokes stage `n` iff some effect is its step log. -/
def invokesStage (t : List Effect) (n : Nat) : Bool :=
  t.any (Effect.isStep n)

/-- Is an effect an outbound HTTP request? -/
def Effect.isHttp : Effect → Bool
  | Effect.httpGet _ => true
  | Effect.httpPost _ => true
  | _ => false

/-- A trace attempts a network call iff it contains an HTTP effect. -/
def makesNetworkCall (t : List Effect) : Bool :=
  t.any Effect.isHttp

/-- Is an effect a text-file save? -/
def Effect.isSaveText : Effect → Bool
  | Effect.saveTextFile _ _ => true
  | _ => false

/-- Is an effect an audio-file save? -/
def Effect.isSaveAudio : Effect → Bool
  | Effect.saveAudioFile _ => true
  | _ => false

/-- The missing-variable names reported on the console: the
`console.error` lines of the form `   - NAME` printed at source line
285, with the four-character prefix stripped. -/
def missingLineName : Effect → Option String
  | Effect.consoleError m =>
      match m.data with
      | ' ' :: ' ' :: ' ' :: '-' :: ' ' :: rest => some (String.mk rest)
      | _ => none
  | _ => none

/-- The missing-variable names the console output reports, extracted
from the `   - NAME` error lines (see `missingLineName`). -/
def reportedMissing (t : List Effect) : List String :=
  t.filterMap missingLineName

/-- A concrete environment holding all three required credentials. -/
def envAllKeys : Env := fun n =>
  if n = "NEWSAPI_KEY" || n = "OPENAI_API_KEY" || n = "ELEVENLABS_API_KEY"
  then some "test-key" else none

/-- A concrete environment missing exactly `NEWSAPI_KEY`. -/
def envMissingNews : Env := fun n =>
  if n = "OPENAI_API_KEY" || n = "ELEVENLABS_API_KEY" then some "test-key" else none

/-- A concrete environment with the three credentials and a custom
voice override. -/
def envCustomVoice : Env := fun n =>
  if n = "PODCAST_VOICE_ID" then some "custom-voice"
  else if n = "NEWSAPI_KEY" || n = "OPENAI_API_KEY" || n = "ELEVENLABS_API_KEY"
  then some "test-key" else none

/-- Does a run outcome return a value (rather than terminate the process)? -/
def RunOutcome.isReturned {α : Type} : RunOutcome α → Bool
  | RunOutcome.returned _ => true
  | _ => false

/-- Is an effect a `helpers.handleApiError` call (the first statement of
each catch clause)? -/
def Effect.isApiFailure : Effect → Bool
  | Effect.handleApiError _ => true
  | _ => false

/-- The trace printed when validation fails: banner, header, one
`   - NAME` line per missing name, and the hint (source lines 272-287). -/
def missingTrace (names : List String) : List Effect :=
  banner
    ++ [Effect.consoleError "\n❌ Missing required environment variables:"]
    ++ names.map (fun v => Effect.consoleError ("   - " ++ v))
    ++ [Effect.consoleError "\n💡 Copy .env.example to .env and add your API keys\n"]

/-- The trace printed when validation passes: banner, the validation
success log, then the catch clause logging of the `No articles fetched`
exception raised at source line 298. -/
def noArticlesTrace : List Effect :=
  banner
    ++ [Effect.logSuccess "Environment variables validated",
        Effect.consoleError "\n❌ PODCAST GENERATION FAILED",
        Effect.consoleError "Error: No articles fetched",
        Effect.consoleError "\n💡 Check the error messages above for details\n"]

/-- Normal form of `generatePodcast`: every run either reports the
missing variables and exits, or passes validation, hits the always-raised
`No articles fetched` exception, and exits. -/
theorem generatePodcast_eq (env : Env) :
    generatePodcast env =
      if (validateEnvironmentVariables env requiredVars).valid then
        (noArticlesTrace, RunOutcome.exited 1)
      else
        (missingTrace (validateEnvironmentVariables env requiredVars).missing,
         RunOutcome.exited 1) := by
  cases hv : (validateEnvironmentVariables env requiredVars).valid <;>
    simp [generatePodcast, generatePodcastTry, hv, noArticlesTrace, missingTrace]

theorem isNone_eq_false_of_isSome {α : Type} {o : Option α} (h : o.isSome = true) :
    o.isNone = false := by
  cases o <;> simp_all

theorem filter_isEmpty_false_of_any {α : Type} (l : List α) (p : α → Bool)
    (h : l.any p = true) : (l.filter p).isEmpty = false := by
  induction l with
  | nil => simp at h
  | cons a t ih =>
      cases hp : p a
      · rw [List.any_cons, hp, Bool.false_or] at h
        simp [List.filter_cons, hp, ih h]
      · simp [List.filter_cons, hp]

theorem missingLineName_report (v : String) :
    missingLineName (Effect.consoleError ("   - " ++ v)) = some v := by
  cases v
  rfl

theorem filterMap_missingLineName_report (names : List String) :
    List.filterMap (fun v => missingLineName (Effect.consoleError ("   - " ++ v)))
      names = names := by
  induction names with
  | nil => rfl
  | cons a t ih => simp [List.filterMap_cons, missingLineName_report a, ih]

theorem reportedMissing_missingTrace (names : List String) :
    reportedMissing (missingTrace names) = names := by
  unfold reportedMissing missingTrace
  rw [List.filterMap_append, List.filterMap_append, List.filterMap_append,
    List.filterMap_map,
    show List.filterMap missingLineName banner = [] from rfl,
    show List.filterMap missingLineName
      [Effect.consoleError "\n❌ Missing required environment variables:"] = [] from rfl,
    show List.filterMap missingLineName
      [Effect.consoleError "\n💡 Copy .env.example to .env and add your API keys\n"]
      = [] from rfl]
  simp only [List.nil_append, List.append_nil]
  exact filterMap_missingLineName_report names

theorem invokesStage_missingTrace (names : List String) (n : Nat) :
    invokesStage (missingTrace names) n = false := by
  simp [missingTrace, invokesStage, banner, List.any_append, List.any_map,
    Effect.isStep, Function.comp]

theorem makesNetworkCall_missingTrace (names : List String) :
    makesNetworkCall (missingTrace names) = false := by
  simp [missingTrace, makesNetworkCall, banner, List.any_append, List.any_map,
    Effect.isHttp, Function.comp]

/-- On a run whose three required variables are all present, validation
succeeds and `generatePodcast` reduces to the `No articles fetched`
abort: the `articles` binding is the constant `null` of source line 294,
so the guard at line 297 raises and the catch clause exits. -/
theorem generatePodcast_valid_eq (env : Env)
    (h : requiredVars.all (fun v => (env v).isSome) = true) :
    generatePodcast env = (noArticlesTrace, RunOutcome.exited 1) := by
  simp only [requiredVars, List.all_cons, List.all_nil, Bool.and_eq_true,
    Bool.and_true] at h
  obtain ⟨h1, h2, h3⟩ := h
  have hv : (validateEnvironmentVariables env requiredVars).valid = true := by
    simp [validateEnvironmentVariables, requiredVars, List.filter_cons,
      isNone_eq_false_of_isSome h1, isNone_eq_false_of_isSome h2,
      isNone_eq_false_of_isSome h3]
  rw [generatePodcast_eq, if_pos hv]

/-- C1: the claim says that with all three credentials present and all
three collaborator stages succeeding, `generatePodcast()` returns the
Run Result summary.  In the code as written no such run exists: with all
credentials present the run terminates with exit code 1 (the `No
articles fetched` abort) and no Run Result is ever returned. -/
theorem generatePodcast_allKeys_exits_without_runResult :
    (generatePodcast envAllKeys).2 = RunOutcome.exited 1 ∧
    (generatePodcast envAllKeys).2.isReturned = false ∧
    Effect.consoleError "Error: No articles fetched" ∈ (generatePodcast envAllKeys).1 := by
  refine ⟨rfl, rfl, ?_⟩
  decide

/-- C2: on every run with at least one required configuration value
absent, `generatePodcast()` exits with code 1, the reported missing
names are exactly the absent required variables, and no collaborator
stage is invoked and no network call is attempted. -/
theorem generatePodcast_missing_env_reports_and_exits (env : Env)
    (h : requiredVars.any (fun v => (env v).isNone) = true) :
    (generatePodcast env).2 = RunOutcome.exited 1 ∧
    reportedMissing (generatePodcast env).1
      = requiredVars.filter (fun v => (env v).isNone) ∧
    makesNetworkCall (generatePodcast env).1 = false ∧
    invokesStage (generatePodcast env).1 1 = false ∧
    invokesStage (generatePodcast env).1 2 = false ∧
    invokesStage (generatePodcast env).1 3 = false := by
  have hv : (validateEnvironmentVariables env requiredVars).valid = false := by
    simpa [validateEnvironmentVariables] using
      filter_isEmpty_false_of_any requiredVars (fun v => (env v).isNone) h
  have key : generatePodcast env =
      (missingTrace (requiredVars.filter (fun v => (env v).isNone)),
       RunOutcome.exited 1) := by
    rw [generatePodcast_eq, if_neg (by simp [hv])]
    exact rfl
  rw [key]
  exact ⟨rfl, reportedMissing_missingTrace _, makesNetworkCall_missingTrace _,
    invokesStage_missingTrace _ 1, invokesStage_missingTrace _ 2,
    invokesStage_missingTrace _ 3⟩

/-- C2 witness: the environment missing exactly `NEWSAPI_KEY`. -/
theorem generatePodcast_missing_env_reports_and_exits_witness :
    requiredVars.any (fun v => (envMissingNews v).isNone) = true ∧
    ((generatePodcast envMissingNews).2 = RunOutcome.exited 1 ∧
     reportedMissing (generatePodcast envMissingNews).1
       = requiredVars.filter (fun v => (envMissingNews v).isNone) ∧
     makesNetworkCall (generatePodcast envMissingNews).1 = false ∧
     invokesStage (generatePodcast envMissingNews).1 1 = false ∧
     invokesStage (generatePodcast envMissingNews).1 2 = false ∧
     invokesStage (generatePodcast envMissingNews).1 3 = false) :=
  ⟨by decide, generatePodcast_missing_env_reports_and_exits envMissingNews (by decide)⟩

/-- C3: on every run passing validation the collection bound to
`articles` is absent (the constant `null`), the pipeline aborts with the
`No articles fetched` failure, the process exits with code 1, and the
Script Generator stage is never invoked. -/
theorem generatePodcast_no_articles_aborts_before_script (env : Env)
    (h : requiredVars.all (fun v => (env v).isSome) = true) :
    (generatePodcast env).2 = RunOutcome.exited 1 ∧
    Effect.consoleError "Error: No articles fetched" ∈ (generatePodcast env).1 ∧
    invokesStage (generatePodcast env).1 2 = false := by
  rw [generatePodcast_valid_eq env h]
  refine ⟨rfl, by decide, by decide⟩

/-- C3 witness: the environment holding all three credentials. -/
theorem generatePodcast_no_articles_aborts_before_script_witness :
    requiredVars.all (fun v => (envAllKeys v).isSome) = true ∧
    ((generatePodcast envAllKeys).2 = RunOutcome.exited 1 ∧
     Effect.consoleError "Error: No articles fetched" ∈ (generatePodcast envAllKeys).1 ∧
     invokesStage (generatePodcast envAllKeys).1 2 = false) :=
  ⟨by decide, generatePodcast_no_articles_aborts_before_script envAllKeys (by decide)⟩

/-- C4: in the code as written the `No script generated` guard (source
lines 306-308) is unreachable: with all credentials present the try
block always raises `No articles fetched` first, the `No script
generated` message is never logged, and neither the Script Generator nor
the Audio Synthesizer stage is ever invoked. -/
theorem generatePodcast_script_guard_never_reached :
    (generatePodcastTry envAllKeys).2 = TryOutcome.threw "No articles fetched" ∧
    Effect.consoleError "Error: No script generated" ∉ (generatePodcast envAllKeys).1 ∧
    invokesStage (generatePodcast envAllKeys).1 2 = false ∧
    invokesStage (generatePodcast envAllKeys).1 3 = false := by
  decide

/-- C5: in the code as written `generateAudio` never raises — it makes
no network request and returns the empty `filePath`, so its catch clause
(`Failed to generate audio`) never fires — and `generatePodcast` never
invokes the Audio Synthesizer stage on any environment. -/
theorem generateAudio_never_raises_and_never_invoked (env : Env) (text : String) :
    (generateAudio env text).2 = Except.ok "" ∧
    ((generateAudio env text).1.any Effect.isApiFailure) = false ∧
    invokesStage (generatePodcast env).1 3 = false := by
  refine ⟨rfl, rfl, ?_⟩
  cases hv : (validateEnvironmentVariables env requiredVars).valid
  · rw [generatePodcast_eq, if_neg (by simp [hv])]
    exact invokesStage_missingTrace _ 3
  · rw [generatePodcast_eq, if_pos hv]
    decide

/-- C5 witness: concrete environment and script. -/
theorem generateAudio_never_raises_and_never_invoked_witness :
    (generateAudio envAllKeys "Hello world").2 = Except.ok "" ∧
    ((generateAudio envAllKeys "Hello world").1.any Effect.isApiFailure) = false ∧
    invokesStage (generatePodcast envAllKeys).1 3 = false :=
  generateAudio_never_raises_and_never_invoked envAllKeys "Hello world"

/-- C6: the voice identifier `generateAudio` binds is the hard-coded
default even when `PODCAST_VOICE_ID` is set: the code disagrees with the
configurable identifier the claim (and the hint at source line 202)
describes. -/
theorem generateAudio_voiceId_ignores_configuration :
    voiceIdUsed envCustomVoice = "21m00Tcm4TlvDq8ikWAM" ∧
    specVoiceId envCustomVoice = "custom-voice" ∧
    voiceIdUsed envCustomVoice ≠ specVoiceId envCustomVoice := by
  decide

/-- C7: for every input script, `generateAudio` as written returns the
empty string bound to `filePath` at source line 236 and records no
audio-file save: the returned value is not the non-empty path of a
written file. -/
theorem generateAudio_returns_empty_path_without_saving (env : Env) (text : String) :
    (generateAudio env text).2 = Except.ok "" ∧
    ((generateAudio env text).1.any Effect.isSaveAudio) = false :=
  ⟨rfl, rfl⟩

/-- C7 witness: concrete environment and script. -/
theorem generateAudio_returns_empty_path_without_saving_witness :
    (generateAudio envAllKeys "Breaking news today").2 = Except.ok "" ∧
    ((generateAudio envAllKeys "Breaking news today").1.any Effect.isSaveAudio) = false :=
  generateAudio_returns_empty_path_without_saving envAllKeys "Breaking news today"

/-- C8: for every article list, `generateScript` as written records no
text-file save (the hinted `helpers.saveTextFile(script,
'podcast-script.txt')` call at source line 160 is only a comment) and
returns the empty script. -/
theorem generateScript_never_persists_script (articles : List Article) :
    ((generateScript articles).1.any Effect.isSaveText) = false ∧
    (generateScript articles).2 = Except.ok "" :=
  ⟨rfl, rfl⟩

/-- C8 witness: the two-article list of the spec example. -/
theorem generateScript_never_persists_script_witness :
    ((generateScript [⟨"A"⟩, ⟨"B"⟩]).1.any Effect.isSaveText) = false ∧
    (generateScript [⟨"A"⟩, ⟨"B"⟩]).2 = Except.ok "" :=
  generateScript_never_persists_script [⟨"A"⟩, ⟨"B"⟩]

/-- C9: in the code as written, every run with all required variables
present exits with code 1 after raising `No articles fetched`; the News
Fetcher stage is never invoked and no Run Result is ever returned. -/
theorem generatePodcast_all_env_never_succeeds (env : Env)
    (h : requiredVars.all (fun v => (env v).isSome) = true) :
    (generatePodcast env).2 = RunOutcome.exited 1 ∧
    (generatePodcast env).2.isReturned = false ∧
    invokesStage (generatePodcast env).1 1 = false ∧
    Effect.consoleError "Error: No articles fetched" ∈ (generatePodcast env).1 := by
  rw [generatePodcast_valid_eq env h]
  refine ⟨rfl, rfl, by decide, by decide⟩

/-- C9 witness: the environment holding all three credentials. -/
theorem generatePodcast_all_env_never_succeeds_witness :
    requiredVars.all (fun v => (envAllKeys v).isSome) = true ∧
    ((generatePodcast envAllKeys).2 = RunOutcome.exited 1 ∧
     (generatePodcast envAllKeys).2.isReturned = false ∧
     invokesStage (generatePodcast envAllKeys).1 1 = false ∧
     Effect.consoleError "Error: No articles fetched" ∈ (generatePodcast envAllKeys).1) :=
  ⟨by decide, generatePodcast_all_env_never_succeeds envAllKeys (by decide)⟩

/-- C10: for every environment, `fetchNews` as written returns the empty
array bound to `articles` at source line 65 and issues no HTTP request
(`response` is the constant `null`), independent of any external state. -/
theorem fetchNews_returns_empty_without_http (env : Env) :
    (fetchNews env).2 = Except.ok [] ∧
    makesNetworkCall (fetchNews env).1 = false :=
  ⟨rfl, rfl⟩

/-- C10 witness: the environment holding all three credentials. -/
theorem fetchNews_returns_empty_without_http_witness :
    (fetchNews envAllKeys).2 = Except.ok [] ∧
    makesNetworkCall (fetchNews envAllKeys).1 = false :=
  fetchNews_returns_empty_without_http envAllKeys
